import Mathlib

/-!
# My-Movie-Gallery: verification of the merge / snapshot / import scripts

Shallow embedding of the maintenance scripts of the repository
(`scripts/fetch_movies.js`, `scripts/export_douban_json.js`,
`scripts/import_douban.js` and the unnamed script variants: the
interactive add script, the interactive douban importer and the
non-interactive douban importer).  JS numbers are modelled as `Rat`,
JS strings as `String`, nullable values as `Option`, and the
truthiness tests of the source are made explicit.  Network and host
primitives (TMDB responses, `Date` parsing, `Number` coercion of
strings) are modelled as explicit oracle parameters.
-/

/-- The three library lists an entry can live in
(`watching` / `watched` / `wishlist`). -/
inductive Status
  | watching
  | watched
  | wishlist
deriving DecidableEq, Repr

/-- JS truthiness of a nullable string: `undefined`, `null` and `""` are
falsy, every other string is truthy. -/
def strTruthy : Option String → Bool
  | none => false
  | some s => !(s == "")

/-- JS `s.trim()`: strip leading and trailing whitespace.  Modelled on
the character list so that it evaluates inside the kernel. -/
def jsTrim (s : String) : String :=
  String.mk (((s.data.dropWhile Char.isWhitespace).reverse.dropWhile
    Char.isWhitespace).reverse)

/-- JS `a || b` for a nullable string `a` and a string default `b`:
returns `b` whenever `a` is falsy. -/
def jsOrS (a : Option String) (b : String) : String :=
  match a with
  | none => b
  | some s => if s == "" then b else s

/-- JS `a || b` for two plain strings (`""` is falsy). -/
def strOr (a b : String) : String :=
  if a == "" then b else a

/-- JS `x || null` for a nullable string: a falsy value collapses to
`null` (`none`). -/
def jsOrNull (a : Option String) : Option String :=
  if strTruthy a then a else none

/-- The first-of-two choice used by the merge rules: the incoming value
when it is present, otherwise the existing one (spec-side form of the
`if` fallbacks in the sources). -/
def orElseO {α : Type} : Option α → Option α → Option α
  | some a, _ => some a
  | none, b => b

/-- Worker for `jsSetDedup`: keeps elements not seen before, in first
occurrence order, exactly like iterating a JS `Set`. -/
def jsSetDedupGo {α : Type} [DecidableEq α] : List α → List α → List α
  | [], _ => []
  | x :: xs, seen =>
    if x ∈ seen then jsSetDedupGo xs seen else x :: jsSetDedupGo xs (x :: seen)

/-- Embedding of JS `Array.from(new Set(xs))`: deduplicate keeping the
first occurrence of each element. -/
def jsSetDedup {α : Type} [DecidableEq α] (l : List α) : List α :=
  jsSetDedupGo l []

theorem mem_jsSetDedupGo {α : Type} [DecidableEq α] (l : List α) :
    ∀ seen a, a ∈ jsSetDedupGo l seen ↔ a ∈ l ∧ a ∉ seen := by
  induction l with
  | nil => intro seen a; simp [jsSetDedupGo]
  | cons x xs ih =>
    intro seen a
    by_cases hx : x ∈ seen
    · simp only [jsSetDedupGo, if_pos hx, ih]
      constructor
      · rintro ⟨h1, h2⟩; exact ⟨.tail _ h1, h2⟩
      · rintro ⟨h1, h2⟩
        rcases List.mem_cons.mp h1 with rfl | h1
        · exact absurd hx h2
        · exact ⟨h1, h2⟩
    · simp only [jsSetDedupGo, if_neg hx]
      constructor
      · intro h
        rcases List.mem_cons.mp h with rfl | h
        · exact ⟨.head _, hx⟩
        · rcases (ih _ a).mp h with ⟨h1, h2⟩
          refine ⟨.tail _ h1, fun hc => h2 (.tail _ hc)⟩
      · rintro ⟨h1, h2⟩
        rcases List.mem_cons.mp h1 with rfl | h1
        · exact .head _
        · by_cases hax : a = x
          · subst hax; exact .head _
          · exact .tail _ ((ih _ a).mpr ⟨h1, by
              intro hc
              rcases List.mem_cons.mp hc with h | h
              · exact hax h
              · exact h2 h⟩)

theorem mem_jsSetDedup {α : Type} [DecidableEq α] (l : List α) (a : α) :
    a ∈ jsSetDedup l ↔ a ∈ l := by
  simp [jsSetDedup, mem_jsSetDedupGo]

theorem nodup_jsSetDedupGo {α : Type} [DecidableEq α] (l : List α) :
    ∀ seen, (jsSetDedupGo l seen).Nodup := by
  induction l with
  | nil => intro seen; simp [jsSetDedupGo]
  | cons x xs ih =>
    intro seen
    by_cases hx : x ∈ seen
    · simpa [jsSetDedupGo, if_pos hx] using ih seen
    · simp only [jsSetDedupGo, if_neg hx]
      refine List.nodup_cons.mpr ⟨?_, ih _⟩
      intro hc
      rcases (mem_jsSetDedupGo xs _ x).mp hc with ⟨_, h2⟩
      exact h2 (.head _)

theorem nodup_jsSetDedup {α : Type} [DecidableEq α] (l : List α) :
    (jsSetDedup l).Nodup :=
  nodup_jsSetDedupGo l []

/-- Embedding of JS `arr.sort((a, b) => b.localeCompare(a))` on a list of
ISO date strings: a stable sort into descending lexicographic order. -/
def sortDescStr (l : List String) : List String :=
  List.insertionSort (· ≥ ·) l

/-- Embedding of JS `arr.sort((a, b) => a.localeCompare(b))`: a stable
sort into ascending lexicographic order. -/
def sortAscStr (l : List String) : List String :=
  List.insertionSort (· ≤ ·) l

theorem sortDescStr_sorted (l : List String) :
    (sortDescStr l).Sorted (· ≥ ·) :=
  List.sorted_insertionSort _ l

theorem sortAscStr_sorted (l : List String) :
    (sortAscStr l).Sorted (· ≤ ·) :=
  List.sorted_insertionSort _ l

theorem sortDescStr_perm (l : List String) : List.Perm (sortDescStr l) l :=
  List.perm_insertionSort _ l

theorem sortAscStr_perm (l : List String) : List.Perm (sortAscStr l) l :=
  List.perm_insertionSort _ l

/-- A library entry as the scripts store it in `data/library.json`.
Ids are compared through `String(id)` everywhere in the sources, so the
id is modelled as a string.  All other fields are nullable. -/
structure Entry where
  id : String
  title : Option String := none
  mediaType : Option String := none
  status : Option Status := none
  note : Option String := none
  rating : Option ℚ := none
  watchDates : Option (List String) := none
  watchDate : Option String := none
deriving DecidableEq, Repr

/-- The library store: three lists of entries. -/
structure Library where
  watching : List Entry
  watched : List Entry
  wishlist : List Entry
deriving DecidableEq, Repr

/-- Number of occurrences of an id in one list. -/
def countIdIn (l : List Entry) (i : String) : Nat :=
  l.countP (fun e => e.id == i)

/-- Number of occurrences of an id in the union of the three lists. -/
def countId (lib : Library) (i : String) : Nat :=
  countIdIn lib.watching i + countIdIn lib.watched i + countIdIn lib.wishlist i

/-- Embedding of `Array.isArray(e.watchDates) ? e.watchDates : e.watchDate ? [e.watchDate] : []`,
the date-extraction expression shared verbatim by the scripts. -/
def jsExtractDates (watchDates : Option (List String)) (watchDate : Option String) :
    List String :=
  match watchDates with
  | some l => l
  | none =>
    match watchDate with
    | some d => if d == "" then [] else [d]
    | none => []

namespace AddMovie

/-! Embedding of the interactive add script (the variant with
`searchTmdb` / `mergeEntry` / `insertEntry`). -/

/-- The merged-dates expression inside `mergeEntry`:
`Array.from(new Set([...existingDates, ...incomingDates].filter(Boolean))).sort((a, b) => b.localeCompare(a))`. -/
def mergedWatchDates (existingDates incomingDates : List String) : List String :=
  sortDescStr (jsSetDedup ((existingDates ++ incomingDates).filter (· != "")))

/-- Embedding of `mergeEntry(existing, incoming)` of the add script: starts from a copy
of the incoming entry, falls back to existing scalars when the incoming
ones are falsy, merges the date lists, prefers the incoming status, and
finally deletes the legacy `watchDate` field. -/
def mergeEntry (existing : Option Entry) (incoming : Entry) : Entry :=
  match existing with
  | none => { incoming with watchDate := none }
  | some ex =>
    let note := if !(strTruthy incoming.note) && strTruthy ex.note then ex.note
      else incoming.note
    let rating := match incoming.rating with
      | some r => some r
      | none => ex.rating
    let mediaType := if !(strTruthy incoming.mediaType) && strTruthy ex.mediaType then
        ex.mediaType
      else incoming.mediaType
    let existingDates := jsExtractDates ex.watchDates ex.watchDate
    let incomingDates := jsExtractDates incoming.watchDates incoming.watchDate
    let mergedDates := mergedWatchDates existingDates incomingDates
    let watchDates := if mergedDates.isEmpty then incoming.watchDates else some mergedDates
    let status := match incoming.status with
      | some s => some s
      | none => ex.status
    { incoming with
      note := note
      rating := rating
      mediaType := mediaType
      watchDates := watchDates
      watchDate := none
      status := status }

/-- Embedding of `list.findIndex(...)` followed by `list.splice(index, 1)`: removes
the first entry with the given id and reports it. -/
def removeFirstById : List Entry → String → List Entry × Option Entry
  | [], _ => ([], none)
  | x :: xs, i =>
    if x.id == i then (xs, some x)
    else
      let r := removeFirstById xs i
      (x :: r.1, r.2)

/-- The bucket key of `insertEntry`:
`mergedEntry.status || entry.status || "watching"`. -/
def insertTargetStatus (merged entry : Entry) : Status :=
  match merged.status with
  | some s => s
  | none =>
    match entry.status with
    | some s => s
    | none => .watching

/-- The existing entry found by the removal loop of `insertEntry`.  The
loop assigns `existingEntry` on every hit while scanning
watching, watched, wishlist in order, so a hit in a later list wins. -/
def foundExisting (library : Library) (i : String) : Option Entry :=
  match (removeFirstById library.wishlist i).2 with
  | some e => some e
  | none =>
    match (removeFirstById library.watched i).2 with
    | some e => some e
    | none => (removeFirstById library.watching i).2

/-- Embedding of `insertEntry(library, entry)`: removes the first entry with the same
id from each of the three lists, merges it with the incoming entry and
unshifts the result into the bucket named by `insertTargetStatus`.
(When `entry.status` is not one of the three statuses the JS code also
creates a fresh extra bucket, but that bucket can never be the
insertion target and never holds an entry; statuses are modelled by the
`Status` enumeration, so the three lists fully describe the store.) -/
def insertEntry (library : Library) (entry : Entry) : Library :=
  let rw := removeFirstById library.watching entry.id
  let rd := removeFirstById library.watched entry.id
  let rl := removeFirstById library.wishlist entry.id
  let merged := mergeEntry (foundExisting library entry.id) entry
  match insertTargetStatus merged entry with
  | .watching => { watching := merged :: rw.1, watched := rd.1, wishlist := rl.1 }
  | .watched => { watching := rw.1, watched := merged :: rd.1, wishlist := rl.1 }
  | .wishlist => { watching := rw.1, watched := rd.1, wishlist := merged :: rl.1 }

end AddMovie

namespace ImportFromDouban

/-! Embedding of the non-interactive douban importer (the variant that
consumes `fromdouban.json` records that already carry a `tmdb_id`). -/

/-- Embedding of `mergeDates(existing, incoming)` of this script: deduplicated union,
empty values removed, sorted ASCENDING
(`.sort((a, b) => a.localeCompare(b))`). -/
def mergeDates (existing incoming : List String) : List String :=
  sortAscStr (jsSetDedup ((existing ++ incoming).filter (· != "")))

/-- Embedding of `normaliseDate` of this script: the host `new Date` / `toISOString`
pair is an oracle `jsDateISO` mapping a string to its ISO timestamp when
it parses, `none` when it yields an invalid date. -/
def normaliseDate (jsDateISO : String → Option String) (value : Option String) :
    Option String :=
  match value with
  | none => none
  | some v =>
    if v == "" then none
    else
      let trimmed := jsTrim v
      if trimmed == "" then none
      else
        match jsDateISO trimmed with
        | none => none
        | some iso => some (iso.take 10)

/-- A JS value as it can appear in the `my_rating` field of an imported
record: `null`/`undefined`, a number, or a string. -/
inductive JsValue
  | vNull
  | vNum (q : ℚ)
  | vStr (s : String)
deriving DecidableEq, Repr

/-- JS truthiness of such a value. -/
def jsFalsy : JsValue → Bool
  | .vNull => true
  | .vNum q => q == 0
  | .vStr s => s == ""

/-- Embedding of `Number(x.toFixed(1))`: round to one decimal place. -/
def round1 (x : ℚ) : ℚ :=
  (round (x * 10) : ℤ) / 10

/-- Embedding of `parseRating(raw)` of this script.  `Number(String(raw).trim())` on a
string is the oracle `strToNum` (`none` models `NaN`); on a number the
string round trip is the identity. -/
def parseRating (strToNum : String → Option ℚ) (raw : JsValue) : Option ℚ :=
  if jsFalsy raw && !(raw == JsValue.vNum 0) then none
  else
    let numeric : Option ℚ :=
      match raw with
      | .vNull => none
      | .vNum q => some q
      | .vStr s => strToNum (jsTrim s)
    match numeric with
    | none => none
    | some q =>
      if q < 0 then some 0
      else if q ≤ 5 then some (round1 (q * 2))
      else if q ≤ 10 then some (round1 q)
      else some 10

end ImportFromDouban

namespace ImportDoubanTmdb

/-! Embedding of the interactive douban importer (the variant with
`findByImdb` / `chooseMatch` and a final bulk update of the library). -/

/-- Embedding of `mergeDates(existing, incoming)` of this script: deduplicated union,
empty values removed, sorted DESCENDING
(`.sort((a, b) => b.localeCompare(a))`).  `dedupeDates` of the legacy
`scripts/import_douban.js` is the same expression. -/
def mergeDates (existing incoming : List String) : List String :=
  sortDescStr (jsSetDedup ((existing ++ incoming).filter (· != "")))

/-- Embedding of `normaliseDate` of this script (no trim before parsing). -/
def normaliseDate (jsDateISO : String → Option String) (value : Option String) :
    Option String :=
  match value with
  | none => none
  | some v =>
    if v == "" then none
    else
      match jsDateISO v with
      | none => none
      | some iso => some (iso.take 10)

/-- Embedding of `extractDates(entry)` (`entry` may be `undefined`). -/
def extractDates (e : Option Entry) : List String :=
  match e with
  | none => []
  | some en => jsExtractDates en.watchDates en.watchDate

/-- Embedding of `removeById(list, id)`: drops every entry whose stringified id
matches. -/
def removeById (l : List Entry) (i : String) : List Entry :=
  l.filter (fun e => !(e.id == i))

/-- One element of the `updates` array built by the matching loop:
`{ id, title, mediaType, watchDates, status: "watched" }`. -/
structure Update where
  id : String
  title : Option String := none
  mediaType : Option String := none
  watchDates : List String := []
deriving DecidableEq, Repr

/-- Embedding of `watchDate: mergedDates[0] || null`. -/
def headOrNull (l : List String) : Option String :=
  match l with
  | [] => none
  | d :: _ => if d == "" then none else some d

/-- The in-place replacement of the first matching watched entry:
`watched[idx] = { ...existing, mediaType: ..., watchDates: mergedDates, watchDate: mergedDates[0] || null, status: "watched" }`. -/
def replaceFirstWatched : List Entry → Update → List Entry
  | [], _ => []
  | x :: xs, entry =>
    if x.id == entry.id then
      (let mergedDates := mergeDates (extractDates (some x)) entry.watchDates
       { x with
        mediaType := some (jsOrS entry.mediaType (jsOrS x.mediaType "movie"))
        watchDates := some mergedDates
        watchDate := headOrNull mergedDates
        status := some .watched }) :: xs
    else x :: replaceFirstWatched xs entry

/-- The fresh entry unshifted when the id is not yet in `watched`. -/
def newWatchedEntry (entry : Update) : Entry :=
  { id := entry.id
    title := entry.title
    mediaType := some (jsOrS entry.mediaType "movie")
    status := some .watched
    watchDates := some entry.watchDates
    watchDate := headOrNull entry.watchDates
    note := none }

/-- The `watched` half of the update loop body: replace the first match
in place, or unshift a fresh entry. -/
def applyToWatched (watched : List Entry) (entry : Update) : List Entry :=
  if watched.any (fun e => e.id == entry.id) then replaceFirstWatched watched entry
  else newWatchedEntry entry :: watched

/-- The body of `updates.forEach(...)` in `main`: the id is removed from
`watching` and `wishlist`, then merged into or unshifted onto
`watched`. -/
def applyUpdate (lib : Library) (entry : Update) : Library :=
  { watching := removeById lib.watching entry.id
    watched := applyToWatched lib.watched entry
    wishlist := removeById lib.wishlist entry.id }

/-- The whole `updates.forEach(...)` loop. -/
def applyUpdates (lib : Library) (updates : List Update) : Library :=
  updates.foldl applyUpdate lib

end ImportDoubanTmdb

/-- Observable actions of a script run, used to state ordering claims
such as "exits before any I/O". -/
inductive Event
  | printErr (msg : String)
  | exitProc (code : Nat)
  | readsFile (path : String)
  | writesFile (path : String)
  | httpRequest (url : String)
deriving DecidableEq, Repr

/-- File-system or network actions. -/
def isIOEvent : Event → Bool
  | .readsFile _ => true
  | .writesFile _ => true
  | .httpRequest _ => true
  | _ => false

namespace FetchMovies

/-! Embedding of `scripts/fetch_movies.js`, the snapshot builder. -/

/-- The module-level credential guard:
`if (!TMDB_API_KEY) { console.error(...); process.exit(1); }`.
It runs before `main`, so the rest of the run (`rest`) only happens when
the key is truthy. -/
def startupTrace (apiKey : Option String) (rest : List Event) : List Event :=
  if !(strTruthy apiKey) then
    [.printErr "Missing TMDB_API_KEY environment variable", .exitProc 1]
  else rest

/-- The TMDB metadata the snapshot builder consumes.  Only the fields
the embedded control flow reads are modelled; the remaining payload
fields copied verbatim by `buildTmdbPayload` are carried by keeping the
whole record in the snapshot item. -/
structure Details where
  id : Int
  name : Option String := none
  title : Option String := none
deriving DecidableEq, Repr

/-- One TMDB detail response: a successful body, or an HTTP failure
status. -/
inductive TmdbResponse
  | success (d : Details)
  | failure (status : Nat)
deriving DecidableEq, Repr

/-- Embedding of `entry.mediaType || "movie"`. -/
def entryMediaType (e : Entry) : String :=
  jsOrS e.mediaType "movie"

/-- The warning printed for a 404:
`${mediaType.toUpperCase()} ${id} not found on TMDB (404)`. -/
def warnMsg (id mediaType : String) : String :=
  mediaType.toUpper ++ " " ++ id ++ " not found on TMDB (404)"

/-- Embedding of `fetchDetails(id, mediaType)`: a 404 yields `null` (after a warning),
any other non-success status throws, success yields the body.  The
network is the oracle `o`. -/
def fetchDetails (o : String → String → TmdbResponse) (id mediaType : String) :
    Except Nat (Option Details) :=
  match o id mediaType with
  | .failure s => if s == 404 then .ok none else .error s
  | .success d => .ok (some d)

/-- One enriched snapshot item (the object literal pushed by
`buildSnapshot`); `tmdb` keeps the fetched record. -/
structure SnapItem where
  id : Int
  title : String
  mediaType : String
  status : Option Status
  watchDates : List String
  watchDate : Option String
  rating : Option ℚ
  note : Option String
  tmdb : Details
deriving DecidableEq, Repr

/-- The enrichment of one library entry with its fetched details. -/
def enrich (e : Entry) (d : Details) : SnapItem :=
  let mt := entryMediaType e
  let watchDates := jsExtractDates e.watchDates e.watchDate
  let ordered := sortDescStr watchDates
  { id := d.id
    title :=
      match e.title with
      | some t => t
      | none =>
        match (if mt == "tv" then d.name else d.title) with
        | some t => t
        | none => ""
    mediaType := mt
    status := e.status
    watchDates := ordered
    watchDate := ordered.head?
    rating := e.rating
    note := e.note
    tmdb := d }

/-- Embedding of `buildSnapshot(entries)`: sequential enrichment; a 404 skips the
entry and records its warning, any other failure aborts the whole
build. -/
def buildSnapshot (o : String → String → TmdbResponse) :
    List Entry → Except Nat (List SnapItem × List String)
  | [] => .ok ([], [])
  | e :: rest =>
    match fetchDetails o e.id (entryMediaType e) with
    | .error s => .error s
    | .ok none =>
      match buildSnapshot o rest with
      | .error s => .error s
      | .ok (items, warns) => .ok (items, warnMsg e.id (entryMediaType e) :: warns)
    | .ok (some d) =>
      match buildSnapshot o rest with
      | .error s => .error s
      | .ok (items, warns) => .ok (enrich e d :: items, warns)

/-- Outcome of one run of the builder: the items written to
`data/movies.json` (`none` when nothing was written), the warnings
printed, and the process exit code. -/
structure RunOutcome where
  written : Option (List SnapItem)
  warnings : List String
  exitCode : Nat
deriving DecidableEq, Repr

/-- Embedding of `main()` after the library has been loaded: on any thrown error the
catch block sets a non-zero exit code and the output file is never
touched; otherwise the snapshot is written wholesale. -/
def mainRun (o : String → String → TmdbResponse) (entries : List Entry) : RunOutcome :=
  match buildSnapshot o entries with
  | .error _ => { written := none, warnings := [], exitCode := 1 }
  | .ok (items, warns) => { written := some items, warnings := warns, exitCode := 0 }

end FetchMovies

namespace ImportDoubanTmdb

/-- The module-level credential guard of the interactive douban
importer (message ends with a period, `exit(1)`). -/
def startupTrace (apiKey : Option String) (rest : List Event) : List Event :=
  if !(strTruthy apiKey) then
    [.printErr "Missing TMDB_API_KEY environment variable.", .exitProc 1]
  else rest

end ImportDoubanTmdb

namespace ImportDoubanLegacy

/-! Embedding of the legacy `scripts/import_douban.js`. -/

/-- The module-level credential guard of the legacy importer. -/
def startupTrace (apiKey : Option String) (rest : List Event) : List Event :=
  if !(strTruthy apiKey) then
    [.printErr "Missing TMDB_API_KEY environment variable.", .exitProc 1]
  else rest

/-- Every top-level identifier the module file binds (its imports and
its own declarations), transcribed from the source.  Calling any other
name throws a `ReferenceError` at run time. -/
def topLevelNames : List String :=
  ["readFile", "writeFile", "resolve", "isAbsolute", "stdin", "stdout", "argv",
   "exit", "readline", "TMDB_API_KEY", "TMDB_LANGUAGE", "TMDB_REGION",
   "TMDB_SEARCH_URL", "LIBRARY_PATH", "INPUT_PATH", "rl", "prompt", "loadJson",
   "searchMovie", "summariseMovie", "chooseMatch", "normaliseDate",
   "extractExistingDates", "dedupeDates", "removeById", "main"]

/-- Outcome of one run of the legacy importer. -/
structure LegacyOutcome where
  wroteLibrary : Bool
  exitCode : Nat
  errorName : Option String
deriving DecidableEq, Repr

/-- The tail of `main()` once `updates.length` updates have been
resolved interactively: the empty case returns early; otherwise the
script applies the updates and calls `saveLibrary(updatedLibrary)`,
which is a `ReferenceError` unless `saveLibrary` is a bound top-level
name.  The error is caught by the `.catch` handler, which sets
`process.exitCode = 1`. -/
def runAfterMatching (updatesCount : Nat) : LegacyOutcome :=
  if updatesCount == 0 then
    { wroteLibrary := false, exitCode := 0, errorName := none }
  else if "saveLibrary" ∈ topLevelNames then
    { wroteLibrary := true, exitCode := 0, errorName := none }
  else
    { wroteLibrary := false, exitCode := 1, errorName := some "ReferenceError" }

end ImportDoubanLegacy

namespace ExportDoubanJson

/-! Embedding of `scripts/export_douban_json.js`, the CSV/JSON to
`fromdouban.json` converter that resolves TMDB ids. -/

/-- The module-level credential guard of the exporter. -/
def startupTrace (apiKey : Option String) (rest : List Event) : List Event :=
  if !(strTruthy apiKey) then
    [.printErr "Missing TMDB_API_KEY environment variable.", .exitProc 1]
  else rest

/-- One combined TMDB search result (movie results carry
`title`/`release_date`, tv results `name`/`first_air_date`, and the
`media_type` tag added by the script). -/
structure SearchResult where
  id : Int
  media_type : String
  title : Option String := none
  name : Option String := none
  release_date : Option String := none
  first_air_date : Option String := none
  popularity : Option ℚ := none
deriving DecidableEq, Repr

/-- Embedding of `title.replace(/\s+/g, "").toLowerCase()`. -/
def normTitle (s : String) : String :=
  String.mk ((s.data.filter (fun c => !c.isWhitespace)).map Char.toLower)

/-- Embedding of `releaseYearFromResult(result)`. -/
def releaseYearFromResult (r : SearchResult) : String :=
  let source := if r.media_type == "tv" then r.first_air_date else r.release_date
  match source with
  | some s => if s == "" then "" else s.take 4
  | none => ""

/-- Embedding of `b.popularity || 0` in the popularity comparator. -/
def popOf (r : SearchResult) : ℚ :=
  match r.popularity with
  | some p => p
  | none => 0

/-- Embedding of `.sort((a, b) => (b.popularity || 0) - (a.popularity || 0))`: stable
sort by descending popularity. -/
def sortByPopDesc (l : List SearchResult) : List SearchResult :=
  List.insertionSort (fun a b => popOf b ≤ popOf a) l

/-- The exact-title test of `pickBestMatch`:
`(res.title || res.name || "")` normalised equals the normalised input
title. -/
def exactTitleTest (normalizedTitle : String) (r : SearchResult) : Bool :=
  normTitle (jsOrS r.title (jsOrS r.name "")) == normalizedTitle

/-- Embedding of `pickBestMatch(results, title, year)` as written: when a year is
given the candidate set is first filtered to that year, and every later
step (unique survivor, exact-title match, popularity ranking) works on
the filtered set. -/
def pickBestMatch (results : List SearchResult) (title year : String) :
    Option SearchResult :=
  if results.isEmpty then none
  else
    let normalizedTitle := normTitle title
    let filtered :=
      if year != "" then results.filter (fun r => releaseYearFromResult r == year)
      else results
    if filtered.length == 1 then filtered.head?
    else
      let exactMatches := filtered.filter (exactTitleTest normalizedTitle)
      if exactMatches.length == 1 then exactMatches.head?
      else
        let final := if exactMatches.length > 1 then exactMatches else filtered
        (sortByPopDesc final).head?

/-- The selection rule in the words of the claim: the unique candidate
matching the year if exactly one exists, else the unique exact-title
match among ALL results, else the most popular of ALL results.
Written from the claim text for comparison with `pickBestMatch`. -/
def claimedBestMatch (results : List SearchResult) (title year : String) :
    Option SearchResult :=
  let yearMatches := results.filter (fun r => releaseYearFromResult r == year)
  if yearMatches.length == 1 then yearMatches.head?
  else
    let exact := results.filter (exactTitleTest (normTitle title))
    if exact.length == 1 then exact.head?
    else (sortByPopDesc results).head?

/-- The tie-break of the amended claim, applied WITHIN a candidate set:
unique survivor, else unique exact-title match, else highest popularity
among the exact-title matches when several exist, else highest
popularity among the whole set. -/
def tieBreakWithin (cands : List SearchResult) (title : String) :
    Option SearchResult :=
  if cands.length == 1 then cands.head?
  else
    let exact := cands.filter (exactTitleTest (normTitle title))
    if exact.length == 1 then exact.head?
    else if exact.length > 1 then (sortByPopDesc exact).head?
    else (sortByPopDesc cands).head?

/-- One record of the input file (CSV row already mapped to the generic
record shape, or a JSON element). -/
structure DoubanItem where
  title : Option String := none
  watch_date : Option String := none
  year : Option String := none
  imdb_id : Option String := none
  douban_url : Option String := none
  note : Option String := none
  my_rating : Option String := none
deriving DecidableEq, Repr

/-- One element of the `results` array written to `fromdouban.json`. -/
structure OutRecord where
  title : String
  watch_date : String
  year : String
  imdb_id : Option String
  tmdb_id : Option Int
  douban_url : Option String
  note : Option String
  my_rating : Option String
  media_type : String
deriving DecidableEq, Repr

/-- The body of the main loop for one item with a non-empty trimmed
title.  `search` is the oracle for the combined
`searchMovies ++ searchTvShows` call, `resolveImdb` the oracle for
`resolveImdbId`.  When the record carries an IMDb id the script keeps it
and performs no search (`tmdbId` stays `null`); otherwise the best
search match supplies the TMDB id, media type and a resolved IMDb
id. -/
def exportRecord (search : String → String → List SearchResult)
    (resolveImdb : SearchResult → Option String)
    (item : DoubanItem) (title : String) : OutRecord :=
  let year := jsTrim (jsOrS item.year "")
  let imdbId0 := item.imdb_id.map jsTrim
  let base : OutRecord :=
    { title := title
      watch_date := jsOrS item.watch_date ""
      year := year
      imdb_id := jsOrNull imdbId0
      tmdb_id := none
      douban_url := jsOrNull item.douban_url
      note := jsOrNull item.note
      my_rating := jsOrNull item.my_rating
      media_type := "movie" }
  if strTruthy imdbId0 then base
  else
    match pickBestMatch (search title year) title year with
    | some best =>
      { base with
        tmdb_id := some best.id
        media_type := strOr best.media_type "movie"
        imdb_id := jsOrNull (resolveImdb best) }
    | none => base

/-- Embedding of `limit && results.length >= limit` (the loop break condition;
`limit` is validated positive when supplied). -/
def limitReached (limit : Option Nat) (count : Nat) : Bool :=
  match limit with
  | none => false
  | some l => l ≤ count

/-- The whole main loop over the input records: items without a title
are skipped with a log line, every other item produces exactly one
output record, resolved or not, and the loop never aborts. -/
def exportOutputs (search : String → String → List SearchResult)
    (resolveImdb : SearchResult → Option String) (limit : Option Nat) :
    List DoubanItem → Nat → List OutRecord
  | [], _ => []
  | item :: rest, count =>
    if limitReached limit count then []
    else
      let title := jsTrim (jsOrS item.title "")
      if title == "" then exportOutputs search resolveImdb limit rest count
      else exportRecord search resolveImdb item title ::
        exportOutputs search resolveImdb limit rest (count + 1)

end ExportDoubanJson

section DateMergeLemmas

/-- The common shape of all date merges:
`Array.from(new Set(xs.filter(Boolean)))` sorted descending. -/
theorem mem_dedupSortDesc (xs : List String) (a : String) :
    a ∈ sortDescStr (jsSetDedup (xs.filter (· != ""))) ↔ a ∈ xs ∧ a ≠ "" := by
  rw [(sortDescStr_perm _).mem_iff, mem_jsSetDedup, List.mem_filter]
  simp

theorem mem_dedupSortAsc (xs : List String) (a : String) :
    a ∈ sortAscStr (jsSetDedup (xs.filter (· != ""))) ↔ a ∈ xs ∧ a ≠ "" := by
  rw [(sortAscStr_perm _).mem_iff, mem_jsSetDedup, List.mem_filter]
  simp

theorem nodup_dedupSortDesc (xs : List String) :
    (sortDescStr (jsSetDedup (xs.filter (· != "")))).Nodup :=
  ((sortDescStr_perm _).nodup_iff).mpr (nodup_jsSetDedup _)

theorem nodup_dedupSortAsc (xs : List String) :
    (sortAscStr (jsSetDedup (xs.filter (· != "")))).Nodup :=
  ((sortAscStr_perm _).nodup_iff).mpr (nodup_jsSetDedup _)

end DateMergeLemmas

/-- C1, counterexample.  The claim asserts that EVERY merge/upsert
script sorts the merged `watchDates` descending and that merging
`["2024-10-01"]` with `["2024-10-01", "2025-01-12"]` yields
`["2025-01-12", "2024-10-01"]`.  The `mergeDates` of the non-interactive
douban importer sorts ASCENDING: on exactly that input it returns
`["2024-10-01", "2025-01-12"]`. -/
theorem mergeDates_douban_import_ascending_on_example :
    ImportFromDouban.mergeDates ["2024-10-01"] ["2024-10-01", "2025-01-12"] =
        ["2024-10-01", "2025-01-12"] ∧
      ImportFromDouban.mergeDates ["2024-10-01"] ["2024-10-01", "2025-01-12"] ≠
        ["2025-01-12", "2024-10-01"] := by
  constructor <;>
    · simp [ImportFromDouban.mergeDates, sortAscStr, jsSetDedup, jsSetDedupGo,
        List.insertionSort, List.orderedInsert]
      decide

/-- C1, amended.  In the interactive add script (`mergeEntry`) and the
interactive douban importer the merged `watchDates` list is the
deduplicated union of the two date lists with empty values removed,
sorted DESCENDING by string comparison (the quoted example yields
`["2025-01-12", "2024-10-01"]` there); in the non-interactive douban
importer the same union is sorted ASCENDING.  The merged list is stored
on the entry whenever it is non-empty, and the legacy `watchDate` field
is deleted. -/
theorem watchDates_merge_union_sorted :
    ∀ (a b : List String) (ex inc : Entry),
      ((AddMovie.mergedWatchDates a b).Sorted (· ≥ ·) ∧
        (AddMovie.mergedWatchDates a b).Nodup ∧
        ∀ x, x ∈ AddMovie.mergedWatchDates a b ↔ (x ∈ a ∨ x ∈ b) ∧ x ≠ "") ∧
      ((ImportDoubanTmdb.mergeDates a b).Sorted (· ≥ ·) ∧
        (ImportDoubanTmdb.mergeDates a b).Nodup ∧
        ∀ x, x ∈ ImportDoubanTmdb.mergeDates a b ↔ (x ∈ a ∨ x ∈ b) ∧ x ≠ "") ∧
      ((ImportFromDouban.mergeDates a b).Sorted (· ≤ ·) ∧
        (ImportFromDouban.mergeDates a b).Nodup ∧
        ∀ x, x ∈ ImportFromDouban.mergeDates a b ↔ (x ∈ a ∨ x ∈ b) ∧ x ≠ "") ∧
      ((AddMovie.mergeEntry (some ex) inc).watchDates =
        (let md := AddMovie.mergedWatchDates
          (jsExtractDates ex.watchDates ex.watchDate)
          (jsExtractDates inc.watchDates inc.watchDate)
         if md.isEmpty then inc.watchDates else some md) ∧
        (AddMovie.mergeEntry (some ex) inc).watchDate = none) ∧
      AddMovie.mergedWatchDates ["2024-10-01"] ["2024-10-01", "2025-01-12"] =
        ["2025-01-12", "2024-10-01"] := by
  intro a b ex inc
  refine ⟨⟨sortDescStr_sorted _, nodup_dedupSortDesc _, fun x => ?_⟩,
    ⟨sortDescStr_sorted _, nodup_dedupSortDesc _, fun x => ?_⟩,
    ⟨sortAscStr_sorted _, nodup_dedupSortAsc _, fun x => ?_⟩, ⟨rfl, rfl⟩, ?_⟩
  · rw [AddMovie.mergedWatchDates, mem_dedupSortDesc, List.mem_append]
  · rw [ImportDoubanTmdb.mergeDates, mem_dedupSortDesc, List.mem_append]
  · rw [ImportFromDouban.mergeDates, mem_dedupSortAsc, List.mem_append]
  · simp [AddMovie.mergedWatchDates, sortDescStr, jsSetDedup, jsSetDedupGo,
      List.insertionSort, List.orderedInsert]
    decide

section UniqueIdLemmas

theorem mergeEntry_id (ex : Option Entry) (inc : Entry) :
    (AddMovie.mergeEntry ex inc).id = inc.id := by
  cases ex <;> rfl

theorem removeFirstById_fst_count_self (l : List Entry) (i : String) :
    countIdIn (AddMovie.removeFirstById l i).1 i = countIdIn l i - 1 := by
  induction l with
  | nil => simp [AddMovie.removeFirstById, countIdIn]
  | cons x xs ih =>
    by_cases hx : x.id == i
    · simp [AddMovie.removeFirstById, hx, countIdIn, List.countP_cons]
    · simp only [countIdIn] at ih ⊢
      simp [AddMovie.removeFirstById, hx, List.countP_cons]
      omega

theorem removeFirstById_fst_count_other (l : List Entry) (i j : String)
    (h : j ≠ i) :
    countIdIn (AddMovie.removeFirstById l i).1 j = countIdIn l j := by
  induction l with
  | nil => simp [AddMovie.removeFirstById]
  | cons x xs ih =>
    by_cases hx : x.id == i
    · have hxi : x.id = i := by simpa using hx
      have hxj : (x.id == j) = false := by
        rw [hxi]; exact beq_eq_false_iff_ne.mpr (Ne.symm h)
      simp [AddMovie.removeFirstById, hx, countIdIn, List.countP_cons, hxj]
    · simp only [AddMovie.removeFirstById, hx, Bool.false_eq_true, if_false]
      simp only [countIdIn, List.countP_cons] at ih ⊢
      omega

theorem removeById_count_self (l : List Entry) (i : String) :
    countIdIn (ImportDoubanTmdb.removeById l i) i = 0 := by
  refine List.countP_eq_zero.mpr ?_
  intro e he
  rcases List.mem_filter.mp he with ⟨_, hpe⟩
  simpa using hpe

theorem removeById_count_other (l : List Entry) (i j : String) (h : j ≠ i) :
    countIdIn (ImportDoubanTmdb.removeById l i) j = countIdIn l j := by
  induction l with
  | nil => rfl
  | cons x xs ih =>
    by_cases hx : x.id == i
    · have hxi : x.id = i := by simpa using hx
      have hxj : (x.id == j) = false := by
        rw [hxi]; exact beq_eq_false_iff_ne.mpr (Ne.symm h)
      simp only [countIdIn] at ih ⊢
      simp [ImportDoubanTmdb.removeById, List.filter, hx, List.countP_cons, hxj]
      simpa [ImportDoubanTmdb.removeById] using ih
    · simp only [ImportDoubanTmdb.removeById, List.filter, hx] at ih ⊢
      simp only [Bool.not_false, countIdIn, List.countP_cons] at ih ⊢
      omega

theorem replaceFirstWatched_count (w : List Entry) (u : ImportDoubanTmdb.Update)
    (j : String) :
    countIdIn (ImportDoubanTmdb.replaceFirstWatched w u) j = countIdIn w j := by
  induction w with
  | nil => rfl
  | cons x xs ih =>
    by_cases hx : x.id == u.id
    · simp [ImportDoubanTmdb.replaceFirstWatched, hx, countIdIn, List.countP_cons]
    · simp only [ImportDoubanTmdb.replaceFirstWatched, hx, Bool.false_eq_true,
        if_false]
      simp only [countIdIn, List.countP_cons] at ih ⊢
      omega

theorem applyToWatched_count_self (w : List Entry) (u : ImportDoubanTmdb.Update)
    (h : countIdIn w u.id ≤ 1) :
    countIdIn (ImportDoubanTmdb.applyToWatched w u) u.id = 1 := by
  by_cases hany : w.any (fun e => e.id == u.id)
  · rw [ImportDoubanTmdb.applyToWatched, if_pos hany, replaceFirstWatched_count]
    have hpos : 0 < countIdIn w u.id := by
      rw [countIdIn, List.countP_pos_iff]
      simpa using hany
    omega
  · rw [ImportDoubanTmdb.applyToWatched, if_neg hany]
    have hzero : countIdIn w u.id = 0 := by
      rw [countIdIn, List.countP_eq_zero]
      intro e he hc
      exact hany (List.any_eq_true.mpr ⟨e, he, hc⟩)
    simp [countIdIn, List.countP_cons, ImportDoubanTmdb.newWatchedEntry] at hzero ⊢
    exact hzero

theorem applyToWatched_count_other (w : List Entry) (u : ImportDoubanTmdb.Update)
    (j : String) (h : j ≠ u.id) :
    countIdIn (ImportDoubanTmdb.applyToWatched w u) j = countIdIn w j := by
  by_cases hany : w.any (fun e => e.id == u.id)
  · rw [ImportDoubanTmdb.applyToWatched, if_pos hany, replaceFirstWatched_count]
  · rw [ImportDoubanTmdb.applyToWatched, if_neg hany]
    have hj : ((ImportDoubanTmdb.newWatchedEntry u).id == j) = false := by
      show (u.id == j) = false
      exact beq_eq_false_iff_ne.mpr (Ne.symm h)
    simp [countIdIn, List.countP_cons, hj]

end UniqueIdLemmas

/-- The list of the store holding a given status. -/
def bucketOf (lib : Library) : Status → List Entry
  | .watching => lib.watching
  | .watched => lib.watched
  | .wishlist => lib.wishlist

section InsertEntryLemmas

theorem insertEntry_eq (lib : Library) (e : Entry) :
    AddMovie.insertEntry lib e =
      (let merged := AddMovie.mergeEntry (AddMovie.foundExisting lib e.id) e
       let rw1 := (AddMovie.removeFirstById lib.watching e.id).1
       let rd1 := (AddMovie.removeFirstById lib.watched e.id).1
       let rl1 := (AddMovie.removeFirstById lib.wishlist e.id).1
       match AddMovie.insertTargetStatus merged e with
       | .watching => { watching := merged :: rw1, watched := rd1, wishlist := rl1 }
       | .watched => { watching := rw1, watched := merged :: rd1, wishlist := rl1 }
       | .wishlist => { watching := rw1, watched := rd1, wishlist := merged :: rl1 }) :=
  rfl

theorem mergedId_beq_self (lib : Library) (e : Entry) :
    ((AddMovie.mergeEntry (AddMovie.foundExisting lib e.id) e).id == e.id) = true := by
  rw [mergeEntry_id]
  exact beq_self_eq_true _

theorem mergedId_beq_other (lib : Library) (e : Entry) (j : String) (h : j ≠ e.id) :
    ((AddMovie.mergeEntry (AddMovie.foundExisting lib e.id) e).id == j) = false := by
  rw [mergeEntry_id]
  exact beq_eq_false_iff_ne.mpr (Ne.symm h)

theorem insertEntry_count_self (lib : Library) (e : Entry)
    (h : countId lib e.id ≤ 1) :
    countId (AddMovie.insertEntry lib e) e.id = 1 := by
  have h1 := removeFirstById_fst_count_self lib.watching e.id
  have h2 := removeFirstById_fst_count_self lib.watched e.id
  have h3 := removeFirstById_fst_count_self lib.wishlist e.id
  rw [countId] at h
  simp only [countIdIn] at h h1 h2 h3
  rw [insertEntry_eq]
  cases hst : AddMovie.insertTargetStatus
      (AddMovie.mergeEntry (AddMovie.foundExisting lib e.id) e) e <;>
    · simp only [hst, countId, countIdIn, List.countP_cons, mergedId_beq_self,
        if_true]
      omega

theorem insertEntry_count_other (lib : Library) (e : Entry) (j : String)
    (h : j ≠ e.id) :
    countId (AddMovie.insertEntry lib e) j = countId lib j := by
  have h1 := removeFirstById_fst_count_other lib.watching e.id j h
  have h2 := removeFirstById_fst_count_other lib.watched e.id j h
  have h3 := removeFirstById_fst_count_other lib.wishlist e.id j h
  simp only [countIdIn] at h1 h2 h3
  rw [insertEntry_eq]
  cases hst : AddMovie.insertTargetStatus
      (AddMovie.mergeEntry (AddMovie.foundExisting lib e.id) e) e <;>
    · simp only [hst, countId, countIdIn, List.countP_cons,
        mergedId_beq_other lib e j h, Bool.false_eq_true, if_false]
      omega

theorem insertEntry_bucket_counts (lib : Library) (e : Entry)
    (h : countId lib e.id ≤ 1) :
    countIdIn (bucketOf (AddMovie.insertEntry lib e)
        (AddMovie.insertTargetStatus
          (AddMovie.mergeEntry (AddMovie.foundExisting lib e.id) e) e)) e.id = 1 ∧
      ∀ s, s ≠ AddMovie.insertTargetStatus
          (AddMovie.mergeEntry (AddMovie.foundExisting lib e.id) e) e →
        countIdIn (bucketOf (AddMovie.insertEntry lib e) s) e.id = 0 := by
  have h1 := removeFirstById_fst_count_self lib.watching e.id
  have h2 := removeFirstById_fst_count_self lib.watched e.id
  have h3 := removeFirstById_fst_count_self lib.wishlist e.id
  rw [countId] at h
  simp only [countIdIn] at h h1 h2 h3
  rw [insertEntry_eq]
  cases hst : AddMovie.insertTargetStatus
      (AddMovie.mergeEntry (AddMovie.foundExisting lib e.id) e) e <;>
    · refine ⟨?_, ?_⟩
      · simp only [hst, bucketOf, countIdIn, List.countP_cons, mergedId_beq_self,
          if_true]
        omega
      · intro s hs
        cases s <;>
          first
          | exact absurd rfl hs
          | (simp only [hst, bucketOf, countIdIn]
             omega)

end InsertEntryLemmas

/-- C2: when each id occurs at most once in the union of the three
lists, both upsert operations preserve this.  `insertEntry` of the add
script removes the id from every list and reinserts the merged entry
into the single bucket named by its new status (exactly one occurrence
afterwards, all other buckets hold none, other ids untouched); the
update loop of the douban importer removes the id from `watching` and
`wishlist` and merges into or unshifts onto `watched`. -/
theorem upsert_preserves_unique_id (lib : Library) (e : Entry)
    (u : ImportDoubanTmdb.Update)
    (he : countId lib e.id ≤ 1) (hu : countId lib u.id ≤ 1) :
    countId (AddMovie.insertEntry lib e) e.id = 1 ∧
      (countIdIn (bucketOf (AddMovie.insertEntry lib e)
          (AddMovie.insertTargetStatus
            (AddMovie.mergeEntry (AddMovie.foundExisting lib e.id) e) e)) e.id = 1 ∧
        ∀ s, s ≠ AddMovie.insertTargetStatus
            (AddMovie.mergeEntry (AddMovie.foundExisting lib e.id) e) e →
          countIdIn (bucketOf (AddMovie.insertEntry lib e) s) e.id = 0) ∧
      (∀ j, j ≠ e.id → countId (AddMovie.insertEntry lib e) j = countId lib j) ∧
      countId (ImportDoubanTmdb.applyUpdate lib u) u.id = 1 ∧
      countIdIn (ImportDoubanTmdb.applyUpdate lib u).watching u.id = 0 ∧
      countIdIn (ImportDoubanTmdb.applyUpdate lib u).wishlist u.id = 0 ∧
      countIdIn (ImportDoubanTmdb.applyUpdate lib u).watched u.id = 1 ∧
      ∀ j, j ≠ u.id →
        countId (ImportDoubanTmdb.applyUpdate lib u) j = countId lib j := by
  have hw : countIdIn lib.watched u.id ≤ 1 := by
    rw [countId] at hu; omega
  refine ⟨insertEntry_count_self lib e he, insertEntry_bucket_counts lib e he,
    fun j hj => insertEntry_count_other lib e j hj, ?_, ?_, ?_, ?_, ?_⟩
  · rw [ImportDoubanTmdb.applyUpdate, countId]
    rw [countId] at hu
    have ha := applyToWatched_count_self lib.watched u hw
    simp [removeById_count_self, ha]
  · exact removeById_count_self lib.watching u.id
  · exact removeById_count_self lib.wishlist u.id
  · exact applyToWatched_count_self lib.watched u hw
  · intro j hj
    rw [ImportDoubanTmdb.applyUpdate, countId, countId,
      removeById_count_other lib.watching u.id j hj,
      removeById_count_other lib.wishlist u.id j hj,
      applyToWatched_count_other lib.watched u j hj]

/-- Closed witness for the uniqueness theorem at a concrete store. -/
theorem upsert_preserves_unique_id_witness :
    countId (AddMovie.insertEntry
        { watching := [{ id := "7", status := some .watching }],
          watched := [], wishlist := [] }
        { id := "7", status := some .watched }) "7" = 1 := by
  have h := upsert_preserves_unique_id
    { watching := [{ id := "7", status := some .watching }],
      watched := [], wishlist := [] }
    { id := "7", status := some .watched }
    { id := "7" }
    (by decide) (by decide)
  exact h.1

/-- The scripts never store an empty string in `note` or `mediaType`
(they normalise with `x || null` before storing), so "present" and
"truthy" coincide for these fields. -/
def Entry.ScalarWF (e : Entry) : Prop :=
  e.note ≠ some "" ∧ e.mediaType ≠ some ""

/-- C3: when an incoming entry is merged with an existing entry of the
same id, the merged `note`, `rating` and `mediaType` are the incoming
values when present and the existing ones otherwise; the merged status
is the incoming status if supplied, else the existing status, and the
insertion bucket defaults to `watching` when neither supplies one. -/
theorem mergeEntry_scalar_preference (ex inc : Entry)
    (hex : Entry.ScalarWF ex) (hinc : Entry.ScalarWF inc) :
    (AddMovie.mergeEntry (some ex) inc).note = orElseO inc.note ex.note ∧
      (AddMovie.mergeEntry (some ex) inc).rating = orElseO inc.rating ex.rating ∧
      (AddMovie.mergeEntry (some ex) inc).mediaType =
        orElseO inc.mediaType ex.mediaType ∧
      (AddMovie.mergeEntry (some ex) inc).status = orElseO inc.status ex.status ∧
      AddMovie.insertTargetStatus (AddMovie.mergeEntry (some ex) inc) inc =
        (orElseO inc.status ex.status).getD .watching := by
  obtain ⟨hexn, hexm⟩ := hex
  obtain ⟨hincn, hincm⟩ := hinc
  refine ⟨?_, ?_, ?_, ?_, ?_⟩
  · show (if !(strTruthy inc.note) && strTruthy ex.note then ex.note
      else inc.note) = orElseO inc.note ex.note
    cases hn : inc.note with
    | none =>
      cases hn2 : ex.note with
      | none => simp [strTruthy, orElseO]
      | some t =>
        have ht : t ≠ "" := fun hc => hexn (by rw [hn2, hc])
        simp [strTruthy, orElseO, ht]
    | some s =>
      have hs : s ≠ "" := fun hc => hincn (by rw [hn, hc])
      simp [strTruthy, orElseO, hs]
  · show (match inc.rating with
      | some r => some r
      | none => ex.rating) = orElseO inc.rating ex.rating
    cases inc.rating <;> rfl
  · show (if !(strTruthy inc.mediaType) && strTruthy ex.mediaType then ex.mediaType
      else inc.mediaType) = orElseO inc.mediaType ex.mediaType
    cases hn : inc.mediaType with
    | none =>
      cases hn2 : ex.mediaType with
      | none => simp [strTruthy, orElseO]
      | some t =>
        have ht : t ≠ "" := fun hc => hexm (by rw [hn2, hc])
        simp [strTruthy, orElseO, ht]
    | some s =>
      have hs : s ≠ "" := fun hc => hincm (by rw [hn, hc])
      simp [strTruthy, orElseO, hs]
  · show (match inc.status with
      | some s => some s
      | none => ex.status) = orElseO inc.status ex.status
    cases inc.status <;> rfl
  · have hms : (AddMovie.mergeEntry (some ex) inc).status =
        orElseO inc.status ex.status := by
      show (match inc.status with
        | some s => some s
        | none => ex.status) = orElseO inc.status ex.status
      cases inc.status <;> rfl
    rw [AddMovie.insertTargetStatus.eq_def, hms]
    cases hs : inc.status with
    | none => cases ex.status <;> simp [orElseO]
    | some s => simp [orElseO]

/-- Closed witness for the scalar-preference theorem. -/
theorem mergeEntry_scalar_preference_witness :
    (AddMovie.mergeEntry
        (some { id := "7", note := some "old", rating := some 8,
                mediaType := some "movie", status := some .watched })
        { id := "7", rating := some 9 }).note = some "old" := by
  have h := mergeEntry_scalar_preference
    { id := "7", note := some "old", rating := some 8,
      mediaType := some "movie", status := some .watched }
    { id := "7", rating := some 9 }
    (by constructor <;> decide) (by constructor <;> decide)
  rw [h.1]
  rfl

section SnapshotLemmas

theorem buildSnapshot_all_ok (o : String → String → FetchMovies.TmdbResponse)
    (dets : Entry → FetchMovies.Details) :
    ∀ l : List Entry,
      (∀ x ∈ l, o x.id (FetchMovies.entryMediaType x) = .success (dets x)) →
      FetchMovies.buildSnapshot o l =
        .ok (l.map (fun x => FetchMovies.enrich x (dets x)), []) := by
  intro l
  induction l with
  | nil => intro _; rfl
  | cons x rest ih =>
    intro h
    have hx := h x (.head _)
    have hrest := ih fun y hy => h y (.tail _ hy)
    rw [FetchMovies.buildSnapshot, FetchMovies.fetchDetails, hx, hrest]
    simp

theorem buildSnapshot_one_404 (o : String → String → FetchMovies.TmdbResponse)
    (dets : Entry → FetchMovies.Details) (e : Entry)
    (h404 : o e.id (FetchMovies.entryMediaType e) = .failure 404) :
    ∀ pre post : List Entry,
      (∀ x ∈ pre ++ post, o x.id (FetchMovies.entryMediaType x) = .success (dets x)) →
      FetchMovies.buildSnapshot o (pre ++ e :: post) =
        .ok ((pre ++ post).map (fun x => FetchMovies.enrich x (dets x)),
          [FetchMovies.warnMsg e.id (FetchMovies.entryMediaType e)]) := by
  intro pre
  induction pre with
  | nil =>
    intro post h
    have hpost := buildSnapshot_all_ok o dets post (by simpa using h)
    rw [List.nil_append, FetchMovies.buildSnapshot, FetchMovies.fetchDetails, h404,
      hpost]
    simp
  | cons x rest ih =>
    intro post h
    have hx := h x (.head _)
    have hrest := ih post fun y hy => h y (by
      rcases List.mem_append.mp hy with hy | hy
      · exact List.mem_append.mpr (.inl (.tail _ hy))
      · exact List.mem_append.mpr (.inr hy))
    rw [List.cons_append, FetchMovies.buildSnapshot, FetchMovies.fetchDetails, hx,
      hrest]
    simp

theorem buildSnapshot_fatal (o : String → String → FetchMovies.TmdbResponse) :
    ∀ l : List Entry,
      (∃ x ∈ l, ∃ s, o x.id (FetchMovies.entryMediaType x) = .failure s ∧ s ≠ 404) →
      ∃ s, FetchMovies.buildSnapshot o l = .error s := by
  intro l
  induction l with
  | nil => rintro ⟨x, hx, _⟩; cases hx
  | cons x rest ih =>
    rintro ⟨y, hy, s, hfail, hs⟩
    rcases List.mem_cons.mp hy with rfl | hy
    · refine ⟨s, ?_⟩
      rw [FetchMovies.buildSnapshot, FetchMovies.fetchDetails, hfail]
      have : (s == 404) = false := by simpa using hs
      simp [this]
    · obtain ⟨s', hs'⟩ := ih ⟨y, hy, s, hfail, hs⟩
      cases hfd : FetchMovies.fetchDetails o x.id (FetchMovies.entryMediaType x) with
      | error sx => exact ⟨sx, by rw [FetchMovies.buildSnapshot, hfd]⟩
      | ok od =>
        cases od with
        | none => exact ⟨s', by rw [FetchMovies.buildSnapshot, hfd, hs']⟩
        | some d => exact ⟨s', by rw [FetchMovies.buildSnapshot, hfd, hs']⟩

end SnapshotLemmas

/-- C4: when exactly one library entry gets a 404 from the catalog and
every other entry succeeds, the snapshot builder warns for that entry,
keeps going, and writes exactly the remaining entries, enriched, in
library order: N-1 items for a library of N entries, exit code 0. -/
theorem snapshot_skips_404 (o : String → String → FetchMovies.TmdbResponse)
    (dets : Entry → FetchMovies.Details) (pre post : List Entry) (e : Entry)
    (hok : ∀ x ∈ pre ++ post, o x.id (FetchMovies.entryMediaType x) = .success (dets x))
    (h404 : o e.id (FetchMovies.entryMediaType e) = .failure 404) :
    (FetchMovies.mainRun o (pre ++ e :: post)).written =
        some ((pre ++ post).map (fun x => FetchMovies.enrich x (dets x))) ∧
      (FetchMovies.mainRun o (pre ++ e :: post)).warnings =
        [FetchMovies.warnMsg e.id (FetchMovies.entryMediaType e)] ∧
      (FetchMovies.mainRun o (pre ++ e :: post)).exitCode = 0 ∧
      ((FetchMovies.mainRun o (pre ++ e :: post)).written.getD []).length =
        (pre ++ e :: post).length - 1 := by
  have hb := buildSnapshot_one_404 o dets e h404 pre post hok
  rw [FetchMovies.mainRun, hb]
  refine ⟨rfl, rfl, rfl, ?_⟩
  simp

/-- Closed witness for the 404-skip theorem. -/
theorem snapshot_skips_404_witness :
    (FetchMovies.mainRun
        (fun i _ => if i == "bad" then .failure 404 else .success { id := 1 })
        [{ id := "a" }, { id := "bad" }, { id := "b" }]).warnings =
      [FetchMovies.warnMsg "bad" "movie"] := by
  have h := snapshot_skips_404
    (fun i _ => if i == "bad" then .failure 404 else .success { id := 1 })
    (fun _ => { id := 1 })
    [{ id := "a" }] [{ id := "b" }] { id := "bad" }
    (by intro x hx; fin_cases hx <;> rfl)
    (by rfl)
  exact h.2.1

/-- C5: if any entry of the library draws a non-404 HTTP failure from
the catalog, the snapshot build aborts: nothing is written (the
previous snapshot file is untouched) and the exit code is 1. -/
theorem snapshot_fatal_aborts (o : String → String → FetchMovies.TmdbResponse)
    (entries : List Entry)
    (h : ∃ x ∈ entries, ∃ s,
      o x.id (FetchMovies.entryMediaType x) = .failure s ∧ s ≠ 404) :
    (FetchMovies.mainRun o entries).written = none ∧
      (FetchMovies.mainRun o entries).exitCode = 1 := by
  obtain ⟨s, hs⟩ := buildSnapshot_fatal o entries h
  rw [FetchMovies.mainRun, hs]
  exact ⟨rfl, rfl⟩

/-- Closed witness for the fail-fast theorem at an HTTP 500. -/
theorem snapshot_fatal_aborts_witness :
    (FetchMovies.mainRun
        (fun i _ => if i == "bad" then .failure 500 else .success { id := 1 })
        [{ id := "a" }, { id := "bad" }]).written = none := by
  have h := snapshot_fatal_aborts
    (fun i _ => if i == "bad" then .failure 500 else .success { id := 1 })
    [{ id := "a" }, { id := "bad" }]
    ⟨{ id := "bad" }, by decide, 500, rfl, by decide⟩
  exact h.1

/-- C8: with `TMDB_API_KEY` unset, the snapshot builder and each import
script that requires the key print a message naming the variable and
exit with code 1 at module load, whatever the rest of the run would
have been; the resulting trace contains no file or network I/O. -/
theorem missing_key_fails_before_io (rest : List Event) :
    (FetchMovies.startupTrace none rest =
        [.printErr "Missing TMDB_API_KEY environment variable", .exitProc 1] ∧
      (FetchMovies.startupTrace none rest).all (fun ev => !(isIOEvent ev)) = true) ∧
      (ImportDoubanTmdb.startupTrace none rest =
        [.printErr "Missing TMDB_API_KEY environment variable.", .exitProc 1] ∧
      (ImportDoubanTmdb.startupTrace none rest).all (fun ev => !(isIOEvent ev)) = true) ∧
      (ImportDoubanLegacy.startupTrace none rest =
        [.printErr "Missing TMDB_API_KEY environment variable.", .exitProc 1] ∧
      (ImportDoubanLegacy.startupTrace none rest).all (fun ev => !(isIOEvent ev)) = true) ∧
      (ExportDoubanJson.startupTrace none rest =
        [.printErr "Missing TMDB_API_KEY environment variable.", .exitProc 1] ∧
      (ExportDoubanJson.startupTrace none rest).all (fun ev => !(isIOEvent ev)) = true) := by
  refine ⟨⟨rfl, rfl⟩, ⟨rfl, rfl⟩, ⟨rfl, rfl⟩, ⟨rfl, rfl⟩⟩

/-- C6: `scripts/import_douban.js` never binds `saveLibrary`, so a run
that resolved at least one update dies in a caught `ReferenceError`
with exit code 1, and the library file is written on no input at
all. -/
theorem import_douban_never_saves :
    ("saveLibrary" ∉ ImportDoubanLegacy.topLevelNames) ∧
      (∀ n, (ImportDoubanLegacy.runAfterMatching n).wroteLibrary = false) ∧
      (∀ n, n ≠ 0 →
        (ImportDoubanLegacy.runAfterMatching n).exitCode = 1 ∧
        (ImportDoubanLegacy.runAfterMatching n).errorName = some "ReferenceError") := by
  refine ⟨by decide, ?_, ?_⟩
  · intro n
    rcases n with _ | n
    · rfl
    · simp [ImportDoubanLegacy.runAfterMatching]
      decide
  · intro n hn
    rcases n with _ | n
    · exact absurd rfl hn
    · constructor <;>
        · simp [ImportDoubanLegacy.runAfterMatching]
          decide

/-- Closed witness for the legacy-import theorem at one resolved
update. -/
theorem import_douban_never_saves_witness :
    (ImportDoubanLegacy.runAfterMatching 1).exitCode = 1 :=
  (import_douban_never_saves.2.2 1 (by decide)).1

/-- C7: `normaliseDate` returns the first ten characters of the ISO
timestamp (its `YYYY-MM-DD` calendar-date part) when the input parses,
and silently returns `null` when the input is missing, empty or
unparseable — in both importer variants (the non-interactive one trims
first, the interactive one does not). -/
theorem normaliseDate_spec (parse : String → Option String) (v iso : String) :
    (ImportFromDouban.normaliseDate parse none = none) ∧
      (ImportFromDouban.normaliseDate parse (some "") = none) ∧
      (jsTrim v = "" → ImportFromDouban.normaliseDate parse (some v) = none) ∧
      (parse (jsTrim v) = none → ImportFromDouban.normaliseDate parse (some v) = none) ∧
      (v ≠ "" → jsTrim v ≠ "" → parse (jsTrim v) = some iso →
        ImportFromDouban.normaliseDate parse (some v) = some (iso.take 10)) ∧
      (ImportDoubanTmdb.normaliseDate parse none = none) ∧
      (ImportDoubanTmdb.normaliseDate parse (some "") = none) ∧
      (parse v = none → ImportDoubanTmdb.normaliseDate parse (some v) = none) ∧
      (v ≠ "" → parse v = some iso →
        ImportDoubanTmdb.normaliseDate parse (some v) = some (iso.take 10)) := by
  refine ⟨rfl, rfl, ?_, ?_, ?_, rfl, rfl, ?_, ?_⟩
  · intro ht
    by_cases hv : v = ""
    · subst hv; rfl
    · have hv' : (v == "") = false := by simpa using hv
      simp [ImportFromDouban.normaliseDate, hv', ht]
  · intro hp
    by_cases hv : v = ""
    · subst hv; rfl
    · have hv' : (v == "") = false := by simpa using hv
      by_cases ht : jsTrim v = ""
      · simp [ImportFromDouban.normaliseDate, hv', ht]
      · have ht' : (jsTrim v == "") = false := by simpa using ht
        simp [ImportFromDouban.normaliseDate, hv', ht', hp]
  · intro hv ht hp
    have hv' : (v == "") = false := by simpa using hv
    have ht' : (jsTrim v == "") = false := by simpa using ht
    simp [ImportFromDouban.normaliseDate, hv', ht', hp]
  · intro hp
    by_cases hv : v = ""
    · subst hv; rfl
    · have hv' : (v == "") = false := by simpa using hv
      simp [ImportDoubanTmdb.normaliseDate, hv', hp]
  · intro hv hp
    have hv' : (v == "") = false := by simpa using hv
    simp [ImportDoubanTmdb.normaliseDate, hv', hp]

/-- Closed witness for the date-normalisation theorem at a concrete
parser. -/
theorem normaliseDate_spec_witness :
    ImportDoubanTmdb.normaliseDate
        (fun s => if s == "2024/10/01" then some "2024-10-01T00:00:00.000Z" else none)
        (some "2024/10/01") = some "2024-10-01" := by
  have h := normaliseDate_spec
    (fun s => if s == "2024/10/01" then some "2024-10-01T00:00:00.000Z" else none)
    "2024/10/01" "2024-10-01T00:00:00.000Z"
  rw [h.2.2.2.2.2.2.2.2 (by decide) (by decide)]
  rfl

section RatingLemmas

theorem roundQ_le_roundQ {x y : ℚ} (h : x ≤ y) : round x ≤ round y := by
  rw [round_eq, round_eq]
  exact Int.floor_le_floor (by linarith)

theorem round1_bounds {x : ℚ} (h0 : 0 ≤ x) (h10 : x ≤ 10) :
    0 ≤ ImportFromDouban.round1 x ∧ ImportFromDouban.round1 x ≤ 10 := by
  have hlo : (0 : ℤ) ≤ round (x * 10) := by
    have := roundQ_le_roundQ (show (0 : ℚ) ≤ x * 10 by linarith)
    simpa using this
  have hhi : round (x * 10) ≤ (100 : ℤ) := by
    have := roundQ_le_roundQ (show x * 10 ≤ (100 : ℚ) by linarith)
    simpa using this
  constructor
  · rw [ImportFromDouban.round1]
    positivity
  · rw [ImportFromDouban.round1]
    rw [div_le_iff₀ (by norm_num : (0 : ℚ) < 10)]
    calc ((round (x * 10) : ℤ) : ℚ) ≤ ((100 : ℤ) : ℚ) := by exact_mod_cast hhi
      _ = 10 * 10 := by norm_num

end RatingLemmas

/-- C10: `parseRating` yields `null` on absent or non-numeric input and
otherwise a number in `[0, 10]`: negative inputs clamp to 0, inputs in
`[0, 5]` are doubled and rounded to one decimal, inputs in `(5, 10]`
are kept and rounded to one decimal, inputs above 10 clamp to 10. -/
theorem parseRating_range (strToNum : String → Option ℚ) (s : String) (q : ℚ) :
    (ImportFromDouban.parseRating strToNum .vNull = none) ∧
      (ImportFromDouban.parseRating strToNum (.vStr "") = none) ∧
      (strToNum (jsTrim s) = none →
        ImportFromDouban.parseRating strToNum (.vStr s) = none) ∧
      (s ≠ "" → strToNum (jsTrim s) = some q →
        ImportFromDouban.parseRating strToNum (.vStr s) =
          ImportFromDouban.parseRating strToNum (.vNum q)) ∧
      (∃ v, ImportFromDouban.parseRating strToNum (.vNum q) = some v ∧
        0 ≤ v ∧ v ≤ 10 ∧
        (q < 0 → v = 0) ∧
        (0 ≤ q → q ≤ 5 → v = ImportFromDouban.round1 (q * 2)) ∧
        (5 < q → q ≤ 10 → v = ImportFromDouban.round1 q) ∧
        (10 < q → v = 10)) := by
  refine ⟨rfl, rfl, ?_, ?_, ?_⟩
  · intro hp
    by_cases hs : s = ""
    · subst hs; rfl
    · have hs' : (s == "") = false := by simpa using hs
      simp [ImportFromDouban.parseRating, ImportFromDouban.jsFalsy, hs', hp]
  · intro hs hp
    have hs' : (s == "") = false := by simpa using hs
    by_cases hq : q = 0
    · subst hq
      simp [ImportFromDouban.parseRating, ImportFromDouban.jsFalsy, hs', hp]
    · have hq' : (q == 0) = false := by simpa using hq
      simp [ImportFromDouban.parseRating, ImportFromDouban.jsFalsy, hs', hp, hq']
  · by_cases hneg : q < 0
    · refine ⟨0, ?_, le_refl 0, by norm_num, fun _ => rfl, ?_, ?_, ?_⟩
      · have hq : q ≠ 0 := ne_of_lt hneg
        have hq' : (q == 0) = false := by simpa using hq
        simp [ImportFromDouban.parseRating, ImportFromDouban.jsFalsy, hq', hneg]
      · intro h0 _; exact absurd hneg (not_lt.mpr h0)
      · intro h5 _; exact absurd hneg (not_lt.mpr (by linarith))
      · intro h10; exact absurd hneg (not_lt.mpr (by linarith))
    · push_neg at hneg
      by_cases h5 : q ≤ 5
      · obtain ⟨hlo, hhi⟩ := round1_bounds (x := q * 2) (by linarith) (by linarith)
        refine ⟨ImportFromDouban.round1 (q * 2), ?_, hlo, hhi, ?_, fun _ _ => rfl,
          ?_, ?_⟩
        · by_cases hq : q = 0
          · subst hq
            simp [ImportFromDouban.parseRating, ImportFromDouban.jsFalsy]
          · have hq' : (q == 0) = false := by simpa using hq
            simp [ImportFromDouban.parseRating, ImportFromDouban.jsFalsy, hq',
              not_lt.mpr hneg, h5]
        · intro hc; exact absurd hc (not_lt.mpr hneg)
        · intro hc _; exact absurd h5 (not_le.mpr hc)
        · intro hc; exact absurd (by linarith : q ≤ 5) (not_le.mpr (by linarith))
      · push_neg at h5
        by_cases h10 : q ≤ 10
        · obtain ⟨hlo, hhi⟩ := round1_bounds (x := q) (by linarith) h10
          refine ⟨ImportFromDouban.round1 q, ?_, hlo, hhi, ?_, ?_, fun _ _ => rfl,
            ?_⟩
          · have hq' : (q == 0) = false := by
              simpa using (by linarith : q ≠ 0)
            simp [ImportFromDouban.parseRating, ImportFromDouban.jsFalsy, hq',
              not_lt.mpr hneg, not_le.mpr h5, h10]
          · intro hc; exact absurd hc (not_lt.mpr hneg)
          · intro _ hc; exact absurd hc (not_le.mpr h5)
          · intro hc; exact absurd h10 (not_le.mpr hc)
        · push_neg at h10
          refine ⟨10, ?_, by norm_num, le_refl 10, ?_, ?_, ?_, fun _ => rfl⟩
          · have hq' : (q == 0) = false := by
              simpa using (by linarith : q ≠ 0)
            simp [ImportFromDouban.parseRating, ImportFromDouban.jsFalsy, hq',
              not_lt.mpr hneg, not_le.mpr h5, not_le.mpr h10]
          · intro hc; exact absurd hc (not_lt.mpr hneg)
          · intro _ hc; exact absurd hc (not_le.mpr h5)
          · intro _ hc; exact absurd hc (not_le.mpr h10)

/-- Closed witness for the rating-coercion theorem: a douban 4.5 of 5
becomes 9. -/
theorem parseRating_range_witness :
    ImportFromDouban.parseRating (fun _ => none) (.vNum (9 / 2)) = some 9 := by
  obtain ⟨v, hv, _, _, _, hmid, _, _⟩ :=
    (parseRating_range (fun _ => none) "" (9 / 2)).2.2.2.2
  rw [hv, hmid (by norm_num) (by norm_num)]
  norm_num [ImportFromDouban.round1]

/-- C9, counterexample.  The claim says that when no unique
year-matching candidate exists the unique exact-title match is chosen.
With one search result whose title matches exactly but whose year is
2019 while the record says 2020, `pickBestMatch` filters the candidate
set down to the empty list and returns nothing, while the selection
rule of the claim would return that result. -/
theorem pickBestMatch_year_filter_counterexample :
    ExportDoubanJson.pickBestMatch
        [{ id := 101, media_type := "movie", title := some "Foo",
           release_date := some "2019-05-01", popularity := some 3 }]
        "Foo" "2020" = none ∧
      ExportDoubanJson.claimedBestMatch
        [{ id := 101, media_type := "movie", title := some "Foo",
           release_date := some "2019-05-01", popularity := some 3 }]
        "Foo" "2020" =
        some { id := 101, media_type := "movie", title := some "Foo",
               release_date := some "2019-05-01", popularity := some 3 } := by
  constructor <;> decide

/-- C9, amended.  Resolution uses a directly supplied external id first
(no catalog search happens then, and the TMDB id stays null for the
downstream importer to resolve); only without one is free-text search
used, and the tie-breaking — unique survivor, unique exact-title match,
then popularity — is applied WITHIN the year-filtered candidate set, so
a supplied year that matches no candidate resolves to nothing.  A
record that resolves to nothing is still emitted, with a null
`tmdb_id` (the downstream importer skips it), and never aborts the
batch. -/
theorem catalog_matching_order :
    (∀ results title year,
      ExportDoubanJson.pickBestMatch results title year =
        if results.isEmpty then none
        else
          ExportDoubanJson.tieBreakWithin
            (if year != "" then
              results.filter (fun r => ExportDoubanJson.releaseYearFromResult r == year)
            else results)
            title) ∧
      (∀ search₁ search₂ resolveImdb₁ resolveImdb₂ item title,
        strTruthy (item.imdb_id.map jsTrim) = true →
        ExportDoubanJson.exportRecord search₁ resolveImdb₁ item title =
            ExportDoubanJson.exportRecord search₂ resolveImdb₂ item title ∧
          (ExportDoubanJson.exportRecord search₁ resolveImdb₁ item title).tmdb_id =
            none) ∧
      (∀ search resolveImdb limit item rest count,
        jsTrim (jsOrS item.title "") ≠ "" →
        ExportDoubanJson.limitReached limit count = false →
        ExportDoubanJson.exportOutputs search resolveImdb limit (item :: rest) count =
            ExportDoubanJson.exportRecord search resolveImdb item
                (jsTrim (jsOrS item.title "")) ::
              ExportDoubanJson.exportOutputs search resolveImdb limit rest
                (count + 1) ∧
          (ExportDoubanJson.pickBestMatch
              (search (jsTrim (jsOrS item.title "")) (jsTrim (jsOrS item.year "")))
              (jsTrim (jsOrS item.title "")) (jsTrim (jsOrS item.year "")) = none →
            strTruthy (item.imdb_id.map jsTrim) = false →
            (ExportDoubanJson.exportRecord search resolveImdb item
              (jsTrim (jsOrS item.title ""))).tmdb_id = none)) := by
  refine ⟨?_, ?_, ?_⟩
  · intro results title year
    by_cases hemp : results.isEmpty
    · simp [ExportDoubanJson.pickBestMatch, hemp]
    · simp only [ExportDoubanJson.pickBestMatch, ExportDoubanJson.tieBreakWithin,
        hemp, Bool.false_eq_true, if_false,
        apply_ite (fun l => (ExportDoubanJson.sortByPopDesc l).head?)]
  · intro search₁ search₂ resolveImdb₁ resolveImdb₂ item title h
    constructor
    · simp [ExportDoubanJson.exportRecord, h]
    · simp [ExportDoubanJson.exportRecord, h]
  · intro search resolveImdb limit item rest count htitle hlim
    have htitle' : (jsTrim (jsOrS item.title "") == "") = false := by
      simpa using htitle
    constructor
    · rw [ExportDoubanJson.exportOutputs, hlim]
      simp [htitle']
    · intro hpick himdb
      simp [ExportDoubanJson.exportRecord, himdb, hpick]

/-- Closed witness for the catalog-matching theorem: a record carrying
an IMDb id keeps it and gets no TMDB id, independently of the search
oracle. -/
theorem catalog_matching_order_witness :
    (ExportDoubanJson.exportRecord (fun _ _ => [])
        (fun _ => none) { imdb_id := some "tt0111161" } "The Shawshank Redemption").tmdb_id =
      none := by
  have h := catalog_matching_order.2.1
    (fun _ _ => [])
    (fun _ _ => [{ id := 1, media_type := "movie" }])
    (fun _ => none) (fun _ => some "tt0111161")
    { imdb_id := some "tt0111161" } "The Shawshank Redemption"
    (by decide)
  exact h.2
